import Mathlib

/-!
Verification of `filebeat-wrapper.py`, a Mesos container-logger wrapper.

The script reads three environment inputs (a JSON-encoded executor
descriptor, a sandbox directory, a stream label), provisions two
index-template files, decides an output mode (ship to a remote host,
append to a sidecar file, or pass standard input through), renders a
filebeat configuration in ship mode, and supervises the spawned agent.

The embedding below models JSON values, Python's exception behaviour for
subscripting and iteration, the filesystem as a map from paths to file
contents, and standard input as a list of lines.
-/

namespace FilebeatWrapper

/-- The Python exception classes the script can raise or catch. -/
inductive PyErr where
  | keyError
  | indexError
  | typeError
  | valueError

/-- A decoded JSON value, as produced by `json.loads`. -/
inductive JVal where
  | null
  | bool (b : Bool)
  | num (n : Int)
  | str (s : String)
  | arr (elems : List JVal)
  | obj (fields : List (String × JVal))

/-- Python `d[k]` for a string key `k`: the value when `d` is an object
holding the key, `KeyError` when `d` is an object missing it, and
`TypeError` for every non-object (`None`, numbers, strings, lists). -/
def JVal.getKey : JVal → String → Except PyErr JVal
  | .obj kvs, k =>
    match kvs.lookup k with
    | some v => .ok v
    | none => .error .keyError
  | _, _ => .error .typeError

/-- Python `for x in v`: the elements of a list, the keys of an object,
the one-character strings of a string; `TypeError` otherwise. -/
def JVal.pyIter : JVal → Except PyErr (List JVal)
  | .arr xs => .ok xs
  | .obj kvs => .ok (kvs.map (fun kv => .str kv.1))
  | .str s => .ok (s.data.map (fun c => .str (String.mk [c])))
  | _ => .error .typeError

mutual

/-- Python `repr` on decoded JSON values (strings single-quoted,
containers printed element-wise; string escaping is not modelled). -/
def JVal.pyRepr : JVal → String
  | .null => "None"
  | .bool true => "True"
  | .bool false => "False"
  | .num n => toString n
  | .str s => "\x27" ++ s ++ "\x27"
  | .arr xs => "[" ++ pyReprElems xs ++ "]"
  | .obj kvs => "\x7b" ++ pyReprPairs kvs ++ "\x7d"

/-- Comma-separated `repr`s of list elements. -/
def pyReprElems : List JVal → String
  | [] => ""
  | [x] => x.pyRepr
  | x :: y :: rest => x.pyRepr ++ ", " ++ pyReprElems (y :: rest)

/-- Comma-separated `repr`s of dict key/value pairs. -/
def pyReprPairs : List (String × JVal) → String
  | [] => ""
  | [kv] => "\x27" ++ kv.1 ++ "\x27: " ++ kv.2.pyRepr
  | kv :: p :: rest => "\x27" ++ kv.1 ++ "\x27: " ++ kv.2.pyRepr ++ ", " ++ pyReprPairs (p :: rest)

end

/-- Python `str` on decoded JSON values: identity on strings, `repr`
otherwise (this is what `str.format` applies to each argument). -/
def JVal.pyStr : JVal → String
  | .str s => s
  | v => v.pyRepr

/-- Python truthiness of an optional string: `None` and `""` are falsy. -/
def truthy : Option String → Bool
  | none => false
  | some s => !s.isEmpty

/-- Python `str` of an optional string: `str(None)` is `"None"`. -/
def pyStrOpt : Option String → String
  | none => "None"
  | some s => s

/-- Python `str.lower`, modelled for ASCII: each character is
lower-cased in place. -/
def pyLower (s : String) : String := String.mk (s.data.map Char.toLower)

/-- The filesystem, as a map from paths to the contents of the file
there (`none`: no file at that path). -/
def FS : Type := String → Option String

/-- Writing (mode `"w"`): the file at `p` now holds exactly `c`. -/
def FS.update (fs : FS) (p c : String) : FS :=
  fun q => if q = p then some c else fs q

/-- `os.path.isfile`. -/
def FS.isfile (fs : FS) (p : String) : Bool :=
  (fs p).isSome

/-- Opening in append mode (`"a"`) and writing one line: creates the
file when absent, otherwise keeps its contents and adds `line`. -/
def FS.appendLine (fs : FS) (p line : String) : FS :=
  fs.update p (((fs p).getD "") ++ line)

/-- An empty filesystem. -/
def emptyFS : FS := fun _ => none

/-- The embedded default index-template document (schema version 5.x+),
written verbatim to `filebeat.template.json` when absent. -/
def template_json : String :=
  "\n" ++
  "\x7b\n" ++
  "  \"mappings\": \x7b\n" ++
  "    \"_default_\": \x7b\n" ++
  "      \"_all\": \x7b\n" ++
  "        \"norms\": false\n" ++
  "      \x7d,\n" ++
  "      \"_meta\": \x7b\n" ++
  "        \"version\": \"6.0.0-alpha1\"\n" ++
  "      \x7d,\n" ++
  "      \"dynamic_templates\": [\n" ++
  "        \x7b\n" ++
  "          \"fields\": \x7b\n" ++
  "            \"mapping\": \x7b\n" ++
  "              \"ignore_above\": 1024,\n" ++
  "              \"type\": \"keyword\"\n" ++
  "            \x7d,\n" ++
  "            \"match_mapping_type\": \"string\",\n" ++
  "            \"path_match\": \"fields.*\"\n" ++
  "          \x7d\n" ++
  "        \x7d\n" ++
  "      ],\n" ++
  "      \"properties\": \x7b\n" ++
  "        \"@timestamp\": \x7b\n" ++
  "          \"type\": \"date\"\n" ++
  "        \x7d,\n" ++
  "        \"beat\": \x7b\n" ++
  "          \"properties\": \x7b\n" ++
  "            \"hostname\": \x7b\n" ++
  "              \"ignore_above\": 1024,\n" ++
  "              \"type\": \"keyword\"\n" ++
  "            \x7d,\n" ++
  "            \"name\": \x7b\n" ++
  "              \"ignore_above\": 1024,\n" ++
  "              \"type\": \"keyword\"\n" ++
  "            \x7d\n" ++
  "          \x7d\n" ++
  "        \x7d,\n" ++
  "        \"input_type\": \x7b\n" ++
  "          \"ignore_above\": 1024,\n" ++
  "          \"type\": \"keyword\"\n" ++
  "        \x7d,\n" ++
  "        \"message\": \x7b\n" ++
  "          \"norms\": false,\n" ++
  "          \"type\": \"text\"\n" ++
  "        \x7d,\n" ++
  "        \"offset\": \x7b\n" ++
  "          \"type\": \"long\"\n" ++
  "        \x7d,\n" ++
  "        \"source\": \x7b\n" ++
  "          \"ignore_above\": 1024,\n" ++
  "          \"type\": \"keyword\"\n" ++
  "        \x7d,\n" ++
  "        \"tags\": \x7b\n" ++
  "          \"ignore_above\": 1024,\n" ++
  "          \"type\": \"keyword\"\n" ++
  "        \x7d,\n" ++
  "        \"type\": \x7b\n" ++
  "          \"ignore_above\": 1024,\n" ++
  "          \"type\": \"keyword\"\n" ++
  "        \x7d\n" ++
  "      \x7d\n" ++
  "    \x7d\n" ++
  "  \x7d,\n" ++
  "  \"order\": 0,\n" ++
  "  \"settings\": \x7b\n" ++
  "    \"index.refresh_interval\": \"5s\"\n" ++
  "  \x7d,\n" ++
  "  \"template\": \"filebeat-*\"\n" ++
  "\x7d\n" ++
  ""

/-- The embedded default index-template document (ES 2.x schema),
written verbatim to `filebeat.template-es2x.json` when absent. -/
def template_json_x2 : String :=
  "\n" ++
  "\x7b\n" ++
  "  \"mappings\": \x7b\n" ++
  "    \"_default_\": \x7b\n" ++
  "      \"_all\": \x7b\n" ++
  "        \"norms\": \x7b\n" ++
  "          \"enabled\": false\n" ++
  "        \x7d\n" ++
  "      \x7d,\n" ++
  "      \"_meta\": \x7b\n" ++
  "        \"version\": \"6.0.0-alpha1\"\n" ++
  "      \x7d,\n" ++
  "      \"dynamic_templates\": [\n" ++
  "        \x7b\n" ++
  "          \"fields\": \x7b\n" ++
  "            \"mapping\": \x7b\n" ++
  "              \"ignore_above\": 1024,\n" ++
  "              \"index\": \"not_analyzed\",\n" ++
  "              \"type\": \"string\"\n" ++
  "            \x7d,\n" ++
  "            \"match_mapping_type\": \"string\",\n" ++
  "            \"path_match\": \"fields.*\"\n" ++
  "          \x7d\n" ++
  "        \x7d\n" ++
  "      ],\n" ++
  "      \"properties\": \x7b\n" ++
  "        \"@timestamp\": \x7b\n" ++
  "          \"type\": \"date\"\n" ++
  "        \x7d,\n" ++
  "        \"beat\": \x7b\n" ++
  "          \"properties\": \x7b\n" ++
  "            \"hostname\": \x7b\n" ++
  "              \"ignore_above\": 1024,\n" ++
  "              \"index\": \"not_analyzed\",\n" ++
  "              \"type\": \"string\"\n" ++
  "            \x7d,\n" ++
  "            \"name\": \x7b\n" ++
  "              \"ignore_above\": 1024,\n" ++
  "              \"index\": \"not_analyzed\",\n" ++
  "              \"type\": \"string\"\n" ++
  "            \x7d\n" ++
  "          \x7d\n" ++
  "        \x7d,\n" ++
  "        \"input_type\": \x7b\n" ++
  "          \"ignore_above\": 1024,\n" ++
  "          \"index\": \"not_analyzed\",\n" ++
  "          \"type\": \"string\"\n" ++
  "        \x7d,\n" ++
  "        \"message\": \x7b\n" ++
  "          \"index\": \"analyzed\",\n" ++
  "          \"norms\": \x7b\n" ++
  "            \"enabled\": false\n" ++
  "          \x7d,\n" ++
  "          \"type\": \"string\"\n" ++
  "        \x7d,\n" ++
  "        \"offset\": \x7b\n" ++
  "          \"type\": \"long\"\n" ++
  "        \x7d,\n" ++
  "        \"source\": \x7b\n" ++
  "          \"ignore_above\": 1024,\n" ++
  "          \"index\": \"not_analyzed\",\n" ++
  "          \"type\": \"string\"\n" ++
  "        \x7d,\n" ++
  "        \"tags\": \x7b\n" ++
  "          \"ignore_above\": 1024,\n" ++
  "          \"index\": \"not_analyzed\",\n" ++
  "          \"type\": \"string\"\n" ++
  "        \x7d,\n" ++
  "        \"type\": \x7b\n" ++
  "          \"ignore_above\": 1024,\n" ++
  "          \"index\": \"not_analyzed\",\n" ++
  "          \"type\": \"string\"\n" ++
  "        \x7d\n" ++
  "      \x7d\n" ++
  "    \x7d\n" ++
  "  \x7d,\n" ++
  "  \"order\": 0,\n" ++
  "  \"settings\": \x7b\n" ++
  "    \"index.refresh_interval\": \"5s\"\n" ++
  "  \x7d,\n" ++
  "  \"template\": \"filebeat-*\"\n" ++
  "\x7d\n" ++
  ""

/-- Lines 206–213: for each of the two template files, write the
embedded default when no file is at the target path and the sandbox
directory is truthy; the target paths are built with `str.format`
(so an absent sandbox prints as `"None"`). -/
def provisionTemplates (fs : FS) (sandbox : Option String) : FS :=
  let p1 := pyStrOpt sandbox ++ "/filebeat.template.json"
  let fs1 := if !fs.isfile p1 && truthy sandbox then fs.update p1 template_json else fs
  let p2 := pyStrOpt sandbox ++ "/filebeat.template-es2x.json"
  if !fs1.isfile p2 && truthy sandbox then fs1.update p2 template_json_x2 else fs1

/-- The fixed lookup key for the shipping endpoint. -/
def hostKey : String := "FILEBEAT_OUTPUT_HOST"

/-- Python `v == s` for a string literal `s`: true exactly when `v` is
that string; comparing a non-string to a string is `False`, no error. -/
def JVal.eqStr (v : JVal) (s : String) : Bool :=
  match v with
  | .str t => t == s
  | _ => false

/-- The eager list comprehension
`[x["value"] for x in vars if x["name"] == "FILEBEAT_OUTPUT_HOST"]`
(lines 220–223): `x["name"]` is evaluated for every element in order,
`x["value"]` for each match as it is met; the first exception aborts
the whole comprehension. -/
def collectHostValues : List JVal → Except PyErr (List JVal)
  | [] => .ok []
  | x :: rest =>
    match x.getKey "name" with
    | .error e => .error e
    | .ok n =>
      if n.eqStr hostKey then
        match x.getKey "value" with
        | .error e => .error e
        | .ok v =>
          match collectHostValues rest with
          | .error e => .error e
          | .ok vs => .ok (v :: vs)
      else
        collectHostValues rest

/-- `MESOS_EXECUTOR_INFO["command"]["environment"]["variables"]`
(exceptions propagate). -/
def varsOf (info : JVal) : Except PyErr JVal :=
  match info.getKey "command" with
  | .error e => .error e
  | .ok cmd =>
    match cmd.getKey "environment" with
    | .error e => .error e
    | .ok env => env.getKey "variables"

/-- Lines 220–223 in full: navigate to the variables collection, run
the comprehension, then take element `[0]` (`IndexError` when empty). -/
def hostLookup (info : JVal) : Except PyErr JVal :=
  match varsOf info with
  | .error e => .error e
  | .ok vars =>
    match vars.pyIter with
    | .error e => .error e
    | .ok xs =>
      match collectHostValues xs with
      | .error e => .error e
      | .ok [] => .error .indexError
      | .ok (v :: _) => .ok v

/-- The three output-routing modes. -/
inductive OutputTarget where
  | Ship (host : JVal)
  | SidecarFile (path : String)
  | Passthrough

/-- Lines 229–236, the `except (KeyError, IndexError)` body: sidecar
file `"{}/{}".format(sandbox, stream.lower())` when both sandbox and
stream are truthy, else passthrough. -/
def resolveFallback (sandbox stream : Option String) : Except PyErr OutputTarget :=
  if truthy sandbox && truthy stream then
    .ok (.SidecarFile (pyStrOpt sandbox ++ "/" ++ pyLower (pyStrOpt stream)))
  else
    .ok .Passthrough

/-- Lines 218–236 as a decision: `Ship` when the host lookup succeeds;
the fallback when it raises `KeyError` or `IndexError` (the two classes
the `except` clause catches); any other exception propagates. -/
def resolveOutput (info : JVal) (sandbox stream : Option String) : Except PyErr OutputTarget :=
  match hostLookup info with
  | .ok v => .ok (.Ship v)
  | .error .keyError => resolveFallback sandbox stream
  | .error .indexError => resolveFallback sandbox stream
  | .error e => .error e

/-- Lines 240–245: `MESOS_EXECUTOR_INFO["container"]["docker"]["image"]`
with `""` on `KeyError`; any other exception propagates. -/
def getImage (info : JVal) : Except PyErr JVal :=
  match (match info.getKey "container" with
    | .error e => .error e
    | .ok c =>
      match c.getKey "docker" with
      | .error e => .error e
      | .ok d => d.getKey "image" : Except PyErr JVal) with
  | .ok v => .ok v
  | .error .keyError => .ok (.str "")
  | .error e => .error e

/-- Lines 246–249: `MESOS_EXECUTOR_INFO["framework_id"]["value"]` with
`""` on `KeyError`; any other exception propagates. -/
def getFrameworkId (info : JVal) : Except PyErr JVal :=
  match (match info.getKey "framework_id" with
    | .error e => .error e
    | .ok f => f.getKey "value" : Except PyErr JVal) with
  | .ok v => .ok v
  | .error .keyError => .ok (.str "")
  | .error e => .error e

/-- `template.format(image, framework_id, sandbox, stream, host)`:
the yaml configuration template (lines 14–31) with its five `{}` slots
filled positionally. -/
def templateFormat (image fid sandbox stream host : String) : String :=
  "\nfilebeat:\n  prospectors:\n    -\n      paths:\n        - \"-\"\n      input_type: stdin\n      close_eof: true\n      fields:\n        image: " ++ image ++
  "\n        framework_id: " ++ fid ++
  "\n        mesos_log_sandbox_directory: " ++ sandbox ++
  "\n        mesos_log_stream: " ++ stream ++
  "\n\noutput:\n  elasticsearch:\n    hosts: [\"" ++ host ++ "\"]\n"

/-- The three environment inputs. `executorInfoJson = some v` means
`json.loads(MESOS_EXECUTORINFO_JSON)` returned `v`; `none` means it
raised (`TypeError` on an absent variable, `ValueError` on invalid
JSON), which line 195 catches, leaving the descriptor `{}`. -/
structure Env where
  executorInfoJson : Option JVal
  sandboxDir : Option String
  logStream : Option String

/-- The spawned agent (line 262): `Popen(["/usr/bin/filebeat",
"-path.config", sandbox, "-c", configPath], stdin=sys.stdin)`. -/
structure SpawnedProc where
  pathConfig : Option String
  configPath : String

/-- The observable outcome of `main`: the filesystem, the lines written
to standard output, and either an uncaught exception or `main`'s return
value (`none`, or the spawned process). -/
structure RunOutcome where
  fs : FS
  stdoutLines : List String
  result : Except PyErr (Option SpawnedProc)

/-- Lines 230–232: for each input line, open the sidecar file in append
mode and write the line. -/
def sidecarLoop (fs : FS) (p : String) : List String → FS
  | [] => fs
  | line :: rest => sidecarLoop (fs.appendLine p line) p rest

/-- `main()` (lines 189–262): decode the descriptor (failures caught,
leaving `{}`), provision the templates, resolve the output mode, then
run the sidecar loop, the passthrough loop, or render the configuration
and spawn the agent. -/
def main (env : Env) (fs0 : FS) (stdin : List String) : RunOutcome :=
  let info := env.executorInfoJson.getD (.obj [])
  let fs1 := provisionTemplates fs0 env.sandboxDir
  match resolveOutput info env.sandboxDir env.logStream with
  | .error e => ⟨fs1, [], .error e⟩
  | .ok (.SidecarFile path) => ⟨sidecarLoop fs1 path stdin, [], .ok none⟩
  | .ok .Passthrough => ⟨fs1, stdin, .ok none⟩
  | .ok (.Ship host) =>
    match getImage info with
    | .error e => ⟨fs1, [], .error e⟩
    | .ok image =>
      match getFrameworkId info with
      | .error e => ⟨fs1, [], .error e⟩
      | .ok fid =>
        let configPath := pyStrOpt env.sandboxDir ++ "/filebeat-" ++ pyStrOpt env.logStream ++ ".yml"
        let content := templateFormat image.pyStr fid.pyStr (pyStrOpt env.sandboxDir)
          (pyStrOpt env.logStream) host.pyStr
        ⟨(fs1.update configPath content), [], .ok (some ⟨env.sandboxDir, configPath⟩)⟩

/-- The `__main__` block (lines 264–271): exit 0 when `main` returned
`None`, else exit with `proc.wait()`, here the parameter `childStatus`
(negative for a signal-killed child, per `Popen.wait`). An uncaught
exception is an abnormal termination, modelled as the error itself. -/
def programExit (env : Env) (fs0 : FS) (stdin : List String) (childStatus : Int) :
    Except PyErr Int :=
  match (main env fs0 stdin).result with
  | .error e => .error e
  | .ok none => .ok 0
  | .ok (some _) => .ok childStatus

/-- The spawned child as the supervisor sees it: alive, or exited with
a `Popen.wait` status. -/
structure Child where
  alive : Bool
  waitStatus : Int

/-- The `Popen.wait` status of a child killed by `Popen.kill`
(SIGKILL): `-9`. -/
def sigkillStatus : Int := -9

/-- `proc.kill()`: an immediate SIGKILL; a live child dies with status
`-9`, a dead child is unchanged. -/
def Child.kill (c : Child) : Child :=
  if c.alive then ⟨false, sigkillStatus⟩ else c

/-- Lines 268–269, `def handler(signum, frame): proc.kill()`: the
handler's effect on the child, paired with the exit it requests for the
supervising process itself — the body is a single `kill`, so none. -/
def handlerRun (c : Child) : Child × Option Int := (c.kill, none)

/-- Deliver `n` SIGTERMs to the supervisor while it blocks in
`proc.wait()`; each one runs the installed handler (line 270). -/
def deliverSigterm : Child → Nat → Child
  | c, 0 => c
  | c, n + 1 => deliverSigterm (handlerRun c).1 n

/-- What `proc.wait()` observes after the signals: still blocked
(`none`) while the child lives, else the child's status. -/
def waitStatusAfter (c : Child) (sigs : Nat) : Option Int :=
  let c2 := deliverSigterm c sigs
  if c2.alive then none else some c2.waitStatus

/-- Concatenation of a list of lines. -/
def concatAll : List String → String
  | [] => ""
  | s :: rest => s ++ concatAll rest

/-- Spec §4.3, step 1, stated from the spec's words: the first entry of
the variables collection whose name is exactly the host key, yielding
that entry's value; absence at any nesting level is "not found". -/
def firstMatch : List JVal → Option JVal
  | [] => none
  | x :: rest =>
    match x.getKey "name" with
    | .ok n => if n.eqStr hostKey then (x.getKey "value").toOption else firstMatch rest
    | .error _ => firstMatch rest

/-- Spec §4.3, step 1 over the whole descriptor. -/
def specFindHost (info : JVal) : Option JVal :=
  match varsOf info with
  | .ok (.arr xs) => firstMatch xs
  | _ => none

/-- Spec §4.3 verbatim: `Ship` on a found host, else `SidecarFile` when
sandbox and stream are known, else `Passthrough`. -/
def resolveOutputSpec (info : JVal) (sandbox stream : Option String) : OutputTarget :=
  match specFindHost info with
  | some v => .Ship v
  | none =>
    if truthy sandbox && truthy stream then
      .SidecarFile (pyStrOpt sandbox ++ "/" ++ pyLower (pyStrOpt stream))
    else
      .Passthrough

/-- A variables entry that cannot abort the comprehension: it yields a
name without error, and yields a value without error whenever its name
is the host key. -/
def entryWF (x : JVal) : Bool :=
  match x.getKey "name" with
  | .error _ => false
  | .ok n =>
    if n.eqStr hostKey then
      match x.getKey "value" with
      | .ok _ => true
      | .error _ => false
    else true

/-- Is the value a JSON object? -/
def isObjB : JVal → Bool
  | .obj _ => true
  | _ => false

/-- The variables collection, when present, is an array of objects. -/
def varsShapeSafe : Option JVal → Bool
  | none => true
  | some (.arr xs) => xs.all isObjB
  | some _ => false

/-- The environment block, when present, is an object with a safe
variables collection. -/
def envShapeSafe : Option JVal → Bool
  | none => true
  | some (.obj ekvs) => varsShapeSafe (ekvs.lookup "variables")
  | some _ => false

/-- The command block, when present, is an object with a safe
environment block. -/
def cmdShapeSafe : Option JVal → Bool
  | none => true
  | some (.obj ckvs) => envShapeSafe (ckvs.lookup "environment")
  | some _ => false

/-- Descriptor shapes on which the host lookup cannot raise
`TypeError`: every consumed nesting level, when present, is an object,
and the variables collection, when present, is an array of objects. -/
def DescriptorSafe : JVal → Bool
  | .obj kvs => cmdShapeSafe (kvs.lookup "command")
  | _ => false

/-- The scenario C descriptor: shipping host `es:9200`, image `nginx`. -/
def descScenC : JVal := .obj
  [("command", .obj [("environment", .obj [("variables", .arr
      [.obj [("name", .str "FILEBEAT_OUTPUT_HOST"), ("value", .str "es:9200")]])])]),
   ("container", .obj [("docker", .obj [("image", .str "nginx")])])]

/-- A descriptor whose variables list holds two host-named entries, the
second without a value: the first match carries the value `"h"`, yet
the eager comprehension raises `KeyError` on the second entry. -/
def descTwoHosts : JVal := .obj
  [("command", .obj [("environment", .obj [("variables", .arr
      [.obj [("name", .str "FILEBEAT_OUTPUT_HOST"), ("value", .str "h")],
       .obj [("name", .str "FILEBEAT_OUTPUT_HOST")]])])])]

/-- A descriptor holding only the shipping-host variable. -/
def descHostOnly : JVal := .obj
  [("command", .obj [("environment", .obj [("variables", .arr
      [.obj [("name", .str "FILEBEAT_OUTPUT_HOST"), ("value", .str "es:9200")]])])])]

/-- A filesystem where the first template path holds user content. -/
def userEditedFS : FS :=
  fun q => if q = "/s/filebeat.template.json" then some "user edited" else none

/-! ### Helper lemmas -/

theorem FS.update_self (fs : FS) (p c : String) : fs.update p c p = some c := by
  simp [FS.update]

theorem FS.update_ne (fs : FS) (p c q : String) (h : q ≠ p) : fs.update p c q = fs q := by
  simp [FS.update, h]

/-- One provisioning step (write `c` to `tp` when no file is there and
the guard holds) never changes a path that already holds a file. -/
theorem provisionStep_preserves (fs : FS) (b : Bool) (tp tc p c : String)
    (h : fs p = some c) :
    (if !fs.isfile tp && b then fs.update tp tc else fs) p = some c := by
  by_cases hc : (!fs.isfile tp && b) = true
  · have htp : fs tp = none := by
      have h1 : fs.isfile tp = false := by
        cases hfs : fs.isfile tp
        · rfl
        · rw [hfs] at hc; simp at hc
      simpa [FS.isfile, Option.isSome_iff_exists] using h1
    have hne : p ≠ tp := by
      intro he; rw [he, htp] at h; cases h
    rw [if_pos hc, FS.update_ne fs tp tc p hne]
    exact h
  · rw [if_neg hc]; exact h

/-- One provisioning step leaves every other path alone. -/
theorem provisionStep_frame (fs : FS) (b : Bool) (tp tc q : String) (h : q ≠ tp) :
    (if !fs.isfile tp && b then fs.update tp tc else fs) q = fs q := by
  by_cases hc : (!fs.isfile tp && b) = true
  · rw [if_pos hc, FS.update_ne fs tp tc q h]
  · rw [if_neg hc]

/-- One provisioning step writes when the target is absent and the
guard holds. -/
theorem provisionStep_writes (fs : FS) (b : Bool) (tp tc : String)
    (hb : b = true) (h : fs tp = none) :
    (if !fs.isfile tp && b then fs.update tp tc else fs) tp = some tc := by
  have hc : (!fs.isfile tp && b) = true := by
    simp [FS.isfile, h, hb]
  rw [if_pos hc]
  exact FS.update_self fs tp tc

/-- After one provisioning step with a true guard, a file is present at
the target. -/
theorem provisionStep_isfile (fs : FS) (b : Bool) (tp tc : String) (hb : b = true) :
    ((if !fs.isfile tp && b then fs.update tp tc else fs) : FS).isfile tp = true := by
  unfold FS.isfile
  cases hf : fs tp with
  | none => simp [hb, FS.update]
  | some c => simp [hf]

theorem provisionTemplates_preserves (fs : FS) (sb : Option String) (p c : String)
    (h : fs p = some c) : provisionTemplates fs sb p = some c := by
  unfold provisionTemplates
  exact provisionStep_preserves _ (truthy sb) _ template_json_x2 p c
    (provisionStep_preserves fs (truthy sb) _ template_json p c h)

theorem provisionTemplates_falsy (fs : FS) (sb : Option String)
    (h : truthy sb = false) : provisionTemplates fs sb = fs := by
  unfold provisionTemplates
  simp [h, Bool.and_false]

theorem sidecarLoop_getD (p : String) :
    ∀ (ls : List String) (fs : FS),
      ((sidecarLoop fs p ls) p).getD "" = ((fs p).getD "") ++ concatAll ls := by
  intro ls
  induction ls with
  | nil => intro fs; simp [sidecarLoop, concatAll]
  | cons l rest ih =>
    intro fs
    show ((sidecarLoop (fs.appendLine p l) p rest) p).getD "" = _
    rw [ih (fs.appendLine p l)]
    have : (fs.appendLine p l) p = some (((fs p).getD "") ++ l) := by
      simp [FS.appendLine, FS.update]
    rw [this]
    simp [concatAll, String.append_assoc]

theorem sidecarLoop_frame (p q : String) (h : q ≠ p) :
    ∀ (ls : List String) (fs : FS), (sidecarLoop fs p ls) q = fs q := by
  intro ls
  induction ls with
  | nil => intro fs; rfl
  | cons l rest ih =>
    intro fs
    show (sidecarLoop (fs.appendLine p l) p rest) q = _
    rw [ih (fs.appendLine p l)]
    simp [FS.appendLine, FS.update, h]

/-- The `__main__` block propagates the child's wait status verbatim
whenever `main` returned a spawned process. -/
theorem programExit_spawned (env : Env) (fs0 : FS) (stdin : List String)
    (n : Int) (pr : SpawnedProc)
    (h : (main env fs0 stdin).result = .ok (some pr)) :
    programExit env fs0 stdin n = .ok n := by
  unfold programExit
  rw [h]

theorem template_paths_ne (s : String) :
    s ++ "/filebeat.template.json" ≠ s ++ "/filebeat.template-es2x.json" := by
  intro h
  have hd := congrArg String.data h
  rw [String.data_append, String.data_append] at hd
  have hc := List.append_cancel_left hd
  exact absurd hc (by decide)

theorem provisionTemplates_writes1 (fs : FS) (sb : Option String)
    (hb : truthy sb = true)
    (h : fs (pyStrOpt sb ++ "/filebeat.template.json") = none) :
    provisionTemplates fs sb (pyStrOpt sb ++ "/filebeat.template.json") = some template_json := by
  unfold provisionTemplates
  exact provisionStep_preserves _ (truthy sb) _ template_json_x2 _ template_json
    (provisionStep_writes fs (truthy sb) _ template_json hb h)

theorem provisionTemplates_writes2 (fs : FS) (sb : Option String)
    (hb : truthy sb = true)
    (h : fs (pyStrOpt sb ++ "/filebeat.template-es2x.json") = none) :
    provisionTemplates fs sb (pyStrOpt sb ++ "/filebeat.template-es2x.json")
      = some template_json_x2 := by
  unfold provisionTemplates
  have hfs1 : (if !fs.isfile (pyStrOpt sb ++ "/filebeat.template.json") && truthy sb then
      fs.update (pyStrOpt sb ++ "/filebeat.template.json") template_json else fs)
      (pyStrOpt sb ++ "/filebeat.template-es2x.json") = none := by
    rw [provisionStep_frame fs (truthy sb) _ template_json _
      (fun he => template_paths_ne (pyStrOpt sb) he.symm)]
    exact h
  exact provisionStep_writes _ (truthy sb) _ template_json_x2 hb hfs1

theorem provisionTemplates_isfile1 (fs : FS) (sb : Option String)
    (hb : truthy sb = true) :
    (provisionTemplates fs sb).isfile (pyStrOpt sb ++ "/filebeat.template.json") = true := by
  unfold FS.isfile
  cases hf : fs (pyStrOpt sb ++ "/filebeat.template.json") with
  | none => rw [provisionTemplates_writes1 fs sb hb hf]; rfl
  | some c => rw [provisionTemplates_preserves fs sb _ c hf]; rfl

theorem provisionTemplates_isfile2 (fs : FS) (sb : Option String)
    (hb : truthy sb = true) :
    (provisionTemplates fs sb).isfile (pyStrOpt sb ++ "/filebeat.template-es2x.json") = true := by
  unfold FS.isfile
  cases hf : fs (pyStrOpt sb ++ "/filebeat.template-es2x.json") with
  | none => rw [provisionTemplates_writes2 fs sb hb hf]; rfl
  | some c => rw [provisionTemplates_preserves fs sb _ c hf]; rfl

theorem provisionTemplates_idem (fs : FS) (sb : Option String) :
    provisionTemplates (provisionTemplates fs sb) sb = provisionTemplates fs sb := by
  cases hb : truthy sb with
  | false => rw [provisionTemplates_falsy _ sb hb]
  | true =>
    have h1 := provisionTemplates_isfile1 fs sb hb
    have h2 := provisionTemplates_isfile2 fs sb hb
    conv_lhs => rw [provisionTemplates]
    simp [h1, h2]

/-- The fallback decision, written as a single conditional value. -/
theorem resolveFallback_eq (sb st : Option String) :
    resolveFallback sb st = .ok (if truthy sb && truthy st then
      .SidecarFile (pyStrOpt sb ++ "/" ++ pyLower (pyStrOpt st)) else .Passthrough) := by
  unfold resolveFallback
  by_cases h : (truthy sb && truthy st) = true
  · rw [if_pos h, if_pos h]
  · rw [if_neg h, if_neg h]

/-- The `__main__` block exits 0 whenever `main` returned `None`. -/
theorem programExit_none (env : Env) (fs0 : FS) (stdin : List String) (n : Int)
    (h : (main env fs0 stdin).result = .ok none) :
    programExit env fs0 stdin n = .ok 0 := by
  unfold programExit
  rw [h]

/-- On a well-formed variables list the comprehension succeeds, and its
first element is exactly the spec-side first match's value. -/
theorem collectHostValues_wf : ∀ (xs : List JVal), xs.all entryWF = true →
    ∃ vs, collectHostValues xs = .ok vs ∧ vs.head? = firstMatch xs := by
  intro xs
  induction xs with
  | nil => intro _; exact ⟨[], rfl, rfl⟩
  | cons x rest ih =>
    intro h
    rw [List.all_cons, Bool.and_eq_true] at h
    obtain ⟨hx, hrest⟩ := h
    obtain ⟨vs, hvs, hh⟩ := ih hrest
    cases hn : x.getKey "name" with
    | error e =>
      simp only [entryWF, hn] at hx
      exact Bool.noConfusion hx
    | ok n =>
      simp only [entryWF, hn] at hx
      by_cases hm : n.eqStr hostKey = true
      · rw [if_pos hm] at hx
        cases hv : x.getKey "value" with
        | error e => rw [hv] at hx; simp at hx
        | ok v =>
          refine ⟨v :: vs, ?_, ?_⟩
          · simp only [collectHostValues, hn, if_pos hm, hv, hvs]
          · simp only [firstMatch, hn, if_pos hm, hv, List.head?]
            rfl
      · have hm2 : n.eqStr hostKey = false := by simpa using hm
        refine ⟨vs, ?_, ?_⟩
        · simp [collectHostValues, hn, hm2, hvs]
        · simp [firstMatch, hn, hm2, hh]

/-- Well-formed navigation outcomes make the code's host lookup agree
with the spec-side first-match search. -/
theorem hostLookup_wf (info : JVal)
    (h : varsOf info = .error .keyError ∨
      ∃ xs, varsOf info = .ok (.arr xs) ∧ xs.all entryWF = true) :
    (∃ v, specFindHost info = some v ∧ hostLookup info = .ok v) ∨
    (specFindHost info = none ∧
      (hostLookup info = .error .keyError ∨ hostLookup info = .error .indexError)) := by
  cases h with
  | inl hk =>
    right
    refine ⟨?_, Or.inl ?_⟩
    · simp [specFindHost, hk]
    · simp [hostLookup, hk]
  | inr hx =>
    obtain ⟨xs, hxs, hwf⟩ := hx
    obtain ⟨vs, hvs, hh⟩ := collectHostValues_wf xs hwf
    cases vs with
    | nil =>
      right
      refine ⟨?_, Or.inr ?_⟩
      · simp only [specFindHost, hxs, ← hh]
        rfl
      · simp [hostLookup, hxs, JVal.pyIter, hvs]
    | cons v vs2 =>
      left
      refine ⟨v, ?_, ?_⟩
      · simp only [specFindHost, hxs, ← hh]
        rfl
      · simp [hostLookup, hxs, JVal.pyIter, hvs]

theorem JVal.getKey_of_obj (x : JVal) (k : String) (h : isObjB x = true) :
    (∃ v, x.getKey k = .ok v) ∨ x.getKey k = .error .keyError := by
  cases x with
  | obj kvs =>
    simp only [JVal.getKey]
    cases kvs.lookup k with
    | none => right; rfl
    | some v => left; exact ⟨v, rfl⟩
  | null => exact Bool.noConfusion h
  | bool b => exact Bool.noConfusion h
  | num n => exact Bool.noConfusion h
  | str s => exact Bool.noConfusion h
  | arr xs => exact Bool.noConfusion h

/-- On an array of objects the comprehension either succeeds or raises
`KeyError` — never `TypeError`. -/
theorem collectHostValues_safe : ∀ (xs : List JVal), xs.all isObjB = true →
    (∃ vs, collectHostValues xs = .ok vs) ∨ collectHostValues xs = .error .keyError := by
  intro xs
  induction xs with
  | nil => intro _; exact Or.inl ⟨[], rfl⟩
  | cons x rest ih =>
    intro h
    rw [List.all_cons, Bool.and_eq_true] at h
    obtain ⟨hx, hrest⟩ := h
    cases JVal.getKey_of_obj x "name" hx with
    | inr hk => right; simp [collectHostValues, hk]
    | inl hn =>
      obtain ⟨n, hn⟩ := hn
      by_cases hm : n.eqStr hostKey = true
      · cases JVal.getKey_of_obj x "value" hx with
        | inr hk => right; simp [collectHostValues, hn, if_pos hm, hk]
        | inl hv =>
          obtain ⟨v, hv⟩ := hv
          cases ih hrest with
          | inl hok =>
            obtain ⟨vs, hvs⟩ := hok
            exact Or.inl ⟨v :: vs, by simp [collectHostValues, hn, if_pos hm, hv, hvs]⟩
          | inr hke => right; simp [collectHostValues, hn, if_pos hm, hv, hke]
      · have hm2 : n.eqStr hostKey = false := by simpa using hm
        cases ih hrest with
        | inl hok =>
          obtain ⟨vs, hvs⟩ := hok
          exact Or.inl ⟨vs, by simp [collectHostValues, hn, hm2, hvs]⟩
        | inr hke => right; simp [collectHostValues, hn, hm2, hke]

/-- On safe descriptor shapes the navigation to the variables
collection reaches an array of objects or raises `KeyError`. -/
theorem varsOf_safe (info : JVal) (h : DescriptorSafe info = true) :
    (∃ xs, varsOf info = .ok (.arr xs) ∧ xs.all isObjB = true) ∨
    varsOf info = .error .keyError := by
  cases info with
  | obj kvs =>
    simp only [DescriptorSafe] at h
    cases hcmd : kvs.lookup "command" with
    | none => right; simp [varsOf, JVal.getKey, hcmd]
    | some c =>
      rw [hcmd] at h
      cases c with
      | obj ckvs =>
        simp only [cmdShapeSafe] at h
        cases henv : ckvs.lookup "environment" with
        | none => right; simp [varsOf, JVal.getKey, hcmd, henv]
        | some e =>
          rw [henv] at h
          cases e with
          | obj ekvs =>
            simp only [envShapeSafe] at h
            cases hvars : ekvs.lookup "variables" with
            | none => right; simp [varsOf, JVal.getKey, hcmd, henv, hvars]
            | some vv =>
              rw [hvars] at h
              cases vv with
              | arr xs =>
                refine Or.inl ⟨xs, ?_, ?_⟩
                · simp [varsOf, JVal.getKey, hcmd, henv, hvars]
                · simpa [varsShapeSafe] using h
              | null => exact Bool.noConfusion h
              | bool b => exact Bool.noConfusion h
              | num n => exact Bool.noConfusion h
              | str s => exact Bool.noConfusion h
              | obj o => exact Bool.noConfusion h
          | null => exact Bool.noConfusion h
          | bool b => exact Bool.noConfusion h
          | num n => exact Bool.noConfusion h
          | str s => exact Bool.noConfusion h
          | arr ys => exact Bool.noConfusion h
      | null => exact Bool.noConfusion h
      | bool b => exact Bool.noConfusion h
      | num n => exact Bool.noConfusion h
      | str s => exact Bool.noConfusion h
      | arr ys => exact Bool.noConfusion h
  | null => exact Bool.noConfusion h
  | bool b => exact Bool.noConfusion h
  | num n => exact Bool.noConfusion h
  | str s => exact Bool.noConfusion h
  | arr ys => exact Bool.noConfusion h

/-- On safe descriptor shapes the host lookup never raises
`TypeError`: it succeeds or raises one of the two caught classes. -/
theorem hostLookup_safe (info : JVal) (h : DescriptorSafe info = true) :
    (∃ v, hostLookup info = .ok v) ∨
    hostLookup info = .error .keyError ∨ hostLookup info = .error .indexError := by
  cases varsOf_safe info h with
  | inr hk => right; left; simp [hostLookup, hk]
  | inl hx =>
    obtain ⟨xs, hxs, hsafe⟩ := hx
    cases collectHostValues_safe xs hsafe with
    | inr hke => right; left; simp [hostLookup, hxs, JVal.pyIter, hke]
    | inl hok =>
      obtain ⟨vs, hvs⟩ := hok
      cases vs with
      | nil => right; right; simp [hostLookup, hxs, JVal.pyIter, hvs]
      | cons v vs2 => exact Or.inl ⟨v, by simp [hostLookup, hxs, JVal.pyIter, hvs]⟩

theorem resolveOutput_of_hostOk (info : JVal) (sb st : Option String) (v : JVal)
    (h : hostLookup info = .ok v) : resolveOutput info sb st = .ok (.Ship v) := by
  simp [resolveOutput, h]

theorem resolveOutput_of_hostErr (info : JVal) (sb st : Option String)
    (h : hostLookup info = .error .keyError ∨ hostLookup info = .error .indexError) :
    resolveOutput info sb st = resolveFallback sb st := by
  cases h with
  | inl h1 => simp [resolveOutput, h1]
  | inr h1 => simp [resolveOutput, h1]

theorem resolveOutput_of_hostTypeErr (info : JVal) (sb st : Option String)
    (h : hostLookup info = .error .typeError) :
    resolveOutput info sb st = .error .typeError := by
  simp [resolveOutput, h]

theorem resolveFallback_sidecar (sb st : Option String)
    (hsb : truthy sb = true) (hst : truthy st = true) :
    resolveFallback sb st
      = .ok (.SidecarFile (pyStrOpt sb ++ "/" ++ pyLower (pyStrOpt st))) := by
  simp [resolveFallback, hsb, hst]

theorem resolveFallback_passthrough (sb st : Option String)
    (h : (truthy sb && truthy st) = false) :
    resolveFallback sb st = .ok .Passthrough := by
  simp [resolveFallback, h]

theorem main_of_resolve_sidecar (env : Env) (fs0 : FS) (stdin : List String) (path : String)
    (h : resolveOutput (env.executorInfoJson.getD (.obj [])) env.sandboxDir env.logStream
      = .ok (.SidecarFile path)) :
    main env fs0 stdin
      = ⟨sidecarLoop (provisionTemplates fs0 env.sandboxDir) path stdin, [], .ok none⟩ := by
  simp only [main, h]

theorem main_of_resolve_passthrough (env : Env) (fs0 : FS) (stdin : List String)
    (h : resolveOutput (env.executorInfoJson.getD (.obj [])) env.sandboxDir env.logStream
      = .ok .Passthrough) :
    main env fs0 stdin = ⟨provisionTemplates fs0 env.sandboxDir, stdin, .ok none⟩ := by
  simp only [main, h]

theorem main_of_resolve_ship (env : Env) (fs0 : FS) (stdin : List String)
    (host img fid : JVal)
    (h : resolveOutput (env.executorInfoJson.getD (.obj [])) env.sandboxDir env.logStream
      = .ok (.Ship host))
    (himg : getImage (env.executorInfoJson.getD (.obj [])) = .ok img)
    (hfid : getFrameworkId (env.executorInfoJson.getD (.obj [])) = .ok fid) :
    main env fs0 stdin
      = ⟨(provisionTemplates fs0 env.sandboxDir).update
          (pyStrOpt env.sandboxDir ++ "/filebeat-" ++ pyStrOpt env.logStream ++ ".yml")
          (templateFormat img.pyStr fid.pyStr (pyStrOpt env.sandboxDir)
            (pyStrOpt env.logStream) host.pyStr),
        [],
        .ok (some ⟨env.sandboxDir,
          pyStrOpt env.sandboxDir ++ "/filebeat-" ++ pyStrOpt env.logStream ++ ".yml"⟩)⟩ := by
  simp only [main, h, himg, hfid]

/-- A dead child stays dead (and keeps its status) under further
signal deliveries. -/
theorem deliverSigterm_dead (s : Int) : ∀ m, deliverSigterm ⟨false, s⟩ m = ⟨false, s⟩
  | 0 => rfl
  | m + 1 => by
    show deliverSigterm (handlerRun ⟨false, s⟩).1 m = _
    rw [show (handlerRun (⟨false, s⟩ : Child)).1 = ⟨false, s⟩ from rfl]
    exact deliverSigterm_dead s m

/-! ### Claims -/

/-- C1 (amended): provided the eager scan of the variables collection
raises no lookup error — every scanned entry yields a name, and every
entry named `FILEBEAT_OUTPUT_HOST` yields a value — the Output
Resolver follows the stated priority order: `Ship` with the first
match's value when one exists, else `SidecarFile` of the sandbox
directory joined with the lower-cased stream label when both are
known, else `Passthrough`. -/
theorem C1_resolver_priority_order (info : JVal) (sb st : Option String)
    (h : varsOf info = .error .keyError ∨
      ∃ xs, varsOf info = .ok (.arr xs) ∧ xs.all entryWF = true) :
    resolveOutput info sb st = .ok (resolveOutputSpec info sb st) := by
  cases hostLookup_wf info h with
  | inl hv =>
    obtain ⟨v, hs, hl⟩ := hv
    rw [resolveOutput_of_hostOk info sb st v hl]
    simp [resolveOutputSpec, hs]
  | inr hn =>
    obtain ⟨hs, hl⟩ := hn
    rw [resolveOutput_of_hostErr info sb st hl, resolveFallback_eq]
    simp [resolveOutputSpec, hs]

/-- C1 witness: on the scenario C descriptor the resolver ships to
`es:9200`, as the amended claim states. -/
theorem C1_witness : resolveOutput descScenC none none = .ok (.Ship (.str "es:9200")) := by
  have h := C1_resolver_priority_order descScenC none none (Or.inr ⟨_, rfl, rfl⟩)
  rw [h]
  rfl

/-- C1 counterexample: with two host-named entries, the second lacking
a value, the first match by exact name carries `"h"` — the stated
priority order demands `Ship("h")` (as the spec-side resolver shows) —
yet the code's resolver yields `Passthrough`, because the eager
comprehension raises `KeyError` on the second entry. -/
theorem C1_counterexample :
    resolveOutput descTwoHosts none none = .ok .Passthrough ∧
    resolveOutputSpec descTwoHosts none none = .Ship (.str "h") ∧
    OutputTarget.Passthrough ≠ OutputTarget.Ship (.str "h") :=
  ⟨rfl, rfl, fun h => OutputTarget.noConfusion h⟩

/-- C2: when the spawned agent's wait status is `n`, the supervising
process exits with exactly `n` — the raw status (negative for
signal-killed children) is handed to `sys.exit` unchanged. -/
theorem C2_exit_propagation (env : Env) (fs0 : FS) (stdin : List String)
    (n : Int) (pr : SpawnedProc)
    (h : (main env fs0 stdin).result = .ok (some pr)) :
    programExit env fs0 stdin n = .ok n :=
  programExit_spawned env fs0 stdin n pr h

/-- C2 witness: a ship-mode run whose child reports status `-9`
(killed by a signal) exits with `-9`. -/
theorem C2_witness :
    programExit ⟨some descScenC, some "/s", some "STDOUT"⟩ emptyFS [] (-9) = .ok (-9) :=
  C2_exit_propagation ⟨some descScenC, some "/s", some "STDOUT"⟩ emptyFS [] (-9)
    ⟨some "/s", "/s/filebeat-STDOUT.yml"⟩ rfl

/-- C3 (amended): for absent or invalid-JSON descriptor input, and for
object descriptors whose present nesting levels are objects and whose
variables collection is an array of objects, the Output Resolver never
raises: it ships, or resolves exactly per the fallback rules. Input
decoding to a non-object, or a wrongly-typed nesting level, instead
raises an uncaught `TypeError` (see the counterexample). -/
theorem C3_resolver_no_crash (env : Env)
    (h : env.executorInfoJson = none ∨
      ∃ v, env.executorInfoJson = some v ∧ DescriptorSafe v = true) :
    (∃ w, resolveOutput (env.executorInfoJson.getD (.obj []))
        env.sandboxDir env.logStream = .ok (.Ship w)) ∨
    resolveOutput (env.executorInfoJson.getD (.obj [])) env.sandboxDir env.logStream
      = resolveFallback env.sandboxDir env.logStream := by
  have hsafe : DescriptorSafe (env.executorInfoJson.getD (.obj [])) = true := by
    cases h with
    | inl h0 => rw [h0]; rfl
    | inr h0 => obtain ⟨v, hv, hs⟩ := h0; rw [hv]; exact hs
  cases hostLookup_safe _ hsafe with
  | inl hok =>
    obtain ⟨v, hv⟩ := hok
    exact Or.inl ⟨v, resolveOutput_of_hostOk _ _ _ v hv⟩
  | inr herr =>
    exact Or.inr (resolveOutput_of_hostErr _ _ _ herr)

/-- C3 witness: an absent (or undecodable) descriptor resolves without
raising, per the fallback rules. -/
theorem C3_witness :
    (∃ w, resolveOutput ((none : Option JVal).getD (.obj [])) none none
        = .ok (.Ship w)) ∨
    resolveOutput ((none : Option JVal).getD (.obj [])) none none
      = resolveFallback none none :=
  C3_resolver_no_crash ⟨none, none, none⟩ (Or.inl rfl)

/-- C3 counterexample: the input `"null"` is valid JSON decoding to a
non-object (`None`); the claim says the resolver must not throw, but
the run aborts with an uncaught `TypeError` at
`MESOS_EXECUTOR_INFO["command"]` instead of resolving to `Passthrough`
or `SidecarFile`. -/
theorem C3_counterexample :
    (main ⟨some .null, none, none⟩ emptyFS []).result = .error .typeError ∧
    resolveOutput .null none none = .error .typeError :=
  ⟨rfl, rfl⟩

/-- C4: the Template Provisioner (a) never changes a path that already
holds a file — in particular a pre-existing template file keeps the
user's content; (b) writes each embedded default verbatim when the
sandbox is known (truthy) and the target is absent; (c) is idempotent:
a second run returns the filesystem of the first unchanged. -/
theorem C4_template_provisioner :
    (∀ (fs0 : FS) (sb : Option String) (p c : String), fs0 p = some c →
      provisionTemplates fs0 sb p = some c) ∧
    (∀ (fs0 : FS) (sb : Option String), truthy sb = true →
      (fs0 (pyStrOpt sb ++ "/filebeat.template.json") = none →
        provisionTemplates fs0 sb (pyStrOpt sb ++ "/filebeat.template.json")
          = some template_json) ∧
      (fs0 (pyStrOpt sb ++ "/filebeat.template-es2x.json") = none →
        provisionTemplates fs0 sb (pyStrOpt sb ++ "/filebeat.template-es2x.json")
          = some template_json_x2)) ∧
    (∀ (fs0 : FS) (sb : Option String),
      provisionTemplates (provisionTemplates fs0 sb) sb = provisionTemplates fs0 sb) :=
  ⟨fun fs0 sb p c h => provisionTemplates_preserves fs0 sb p c h,
   fun fs0 sb hb =>
     ⟨fun h => provisionTemplates_writes1 fs0 sb hb h,
      fun h => provisionTemplates_writes2 fs0 sb hb h⟩,
   fun fs0 sb => provisionTemplates_idem fs0 sb⟩

/-- C4 witness: an absent template is created with the embedded
default; a user-edited one survives a run; a second run on an empty
start changes nothing. -/
theorem C4_witness :
    provisionTemplates emptyFS (some "/s") "/s/filebeat.template.json" = some template_json ∧
    provisionTemplates userEditedFS (some "/s") "/s/filebeat.template.json"
      = some "user edited" ∧
    provisionTemplates (provisionTemplates emptyFS (some "/s")) (some "/s")
      = provisionTemplates emptyFS (some "/s") :=
  ⟨(C4_template_provisioner.2.1 emptyFS (some "/s") rfl).1 rfl,
   C4_template_provisioner.1 userEditedFS (some "/s") "/s/filebeat.template.json"
     "user edited" rfl,
   C4_template_provisioner.2.2 emptyFS (some "/s")⟩

/-- C5: in Ship mode the Config Renderer writes the rendered text to
`sandboxDir ++ "/filebeat-" ++ streamLabel ++ ".yml"` with the stream
label's unmodified case, overwriting whatever any starting filesystem
held at that path with content rendered from the current context. -/
theorem C5_config_renderer (env : Env) (fs0 : FS) (stdin : List String)
    (host img fid : JVal)
    (h : resolveOutput (env.executorInfoJson.getD (.obj [])) env.sandboxDir env.logStream
      = .ok (.Ship host))
    (himg : getImage (env.executorInfoJson.getD (.obj [])) = .ok img)
    (hfid : getFrameworkId (env.executorInfoJson.getD (.obj [])) = .ok fid) :
    (main env fs0 stdin).fs
        (pyStrOpt env.sandboxDir ++ "/filebeat-" ++ pyStrOpt env.logStream ++ ".yml")
      = some (templateFormat img.pyStr fid.pyStr (pyStrOpt env.sandboxDir)
          (pyStrOpt env.logStream) host.pyStr) ∧
    (main env fs0 stdin).result
      = .ok (some ⟨env.sandboxDir,
          pyStrOpt env.sandboxDir ++ "/filebeat-" ++ pyStrOpt env.logStream ++ ".yml"⟩) := by
  rw [main_of_resolve_ship env fs0 stdin host img fid h himg hfid]
  exact ⟨FS.update_self _ _ _, rfl⟩

set_option maxRecDepth 100000 in
/-- C5 witness: with host `es:9200`, sandbox `/s`, stream `STDOUT`,
image `nginx`, the file `/s/filebeat-STDOUT.yml` is written and its
content contains `nginx` and `es:9200`. -/
theorem C5_witness :
    (main ⟨some descScenC, some "/s", some "STDOUT"⟩ emptyFS []).fs "/s/filebeat-STDOUT.yml"
      = some (templateFormat "nginx" "" "/s" "STDOUT" "es:9200") ∧
    templateFormat "nginx" "" "/s" "STDOUT" "es:9200"
      = "\nfilebeat:\n  prospectors:\n    -\n      paths:\n        - \"-\"\n      input_type: stdin\n      close_eof: true\n      fields:\n        image: "
        ++ "nginx"
        ++ "\n        framework_id: \n        mesos_log_sandbox_directory: /s\n        mesos_log_stream: STDOUT\n\noutput:\n  elasticsearch:\n    hosts: [\"es:9200\"]\n" ∧
    templateFormat "nginx" "" "/s" "STDOUT" "es:9200"
      = "\nfilebeat:\n  prospectors:\n    -\n      paths:\n        - \"-\"\n      input_type: stdin\n      close_eof: true\n      fields:\n        image: nginx\n        framework_id: \n        mesos_log_sandbox_directory: /s\n        mesos_log_stream: STDOUT\n\noutput:\n  elasticsearch:\n    hosts: [\""
        ++ "es:9200"
        ++ "\"]\n" := by
  refine ⟨?_, rfl, rfl⟩
  exact (C5_config_renderer ⟨some descScenC, some "/s", some "STDOUT"⟩ emptyFS []
    (.str "es:9200") (.str "nginx") (.str "") rfl rfl rfl).1

/-- C6: a termination signal delivered while the supervisor blocks in
`proc.wait()` runs the installed handler, whose only effect is an
immediate kill of the child — it requests no exit of the supervising
process itself — after which the blocking wait observes the killed
status and the supervisor exits with it rather than hanging. -/
theorem C6_signal_handler (c : Child) (sigs : Nat)
    (halive : c.alive = true) (hsigs : 0 < sigs) :
    (handlerRun c).2 = none ∧
    waitStatusAfter c sigs = some sigkillStatus ∧
    (∀ (env : Env) (fs0 : FS) (stdin : List String) (pr : SpawnedProc),
      (main env fs0 stdin).result = .ok (some pr) →
      programExit env fs0 stdin sigkillStatus = .ok sigkillStatus) := by
  refine ⟨rfl, ?_,
    fun env fs0 stdin pr h => programExit_spawned env fs0 stdin sigkillStatus pr h⟩
  cases sigs with
  | zero => exact absurd hsigs (by simp)
  | succ m =>
    have h1 : (handlerRun c).1 = ⟨false, sigkillStatus⟩ := by
      simp [handlerRun, Child.kill, halive]
    have hdead : deliverSigterm c (m + 1) = ⟨false, sigkillStatus⟩ := by
      show deliverSigterm (handlerRun c).1 m = _
      rw [h1]
      exact deliverSigterm_dead sigkillStatus m
    simp [waitStatusAfter, hdead]

/-- C6 witness: one SIGTERM to a live child kills it; the wait
observes status `-9` and a spawned-mode run exits with `-9`. -/
theorem C6_witness :
    (handlerRun ⟨true, 0⟩).2 = none ∧
    waitStatusAfter ⟨true, 0⟩ 1 = some sigkillStatus ∧
    programExit ⟨some descScenC, some "/s", some "STDOUT"⟩ emptyFS [] sigkillStatus
      = .ok sigkillStatus := by
  obtain ⟨h1, h2, h3⟩ := C6_signal_handler ⟨true, 0⟩ 1 rfl (by decide)
  exact ⟨h1, h2, h3 ⟨some descScenC, some "/s", some "STDOUT"⟩ emptyFS []
    ⟨some "/s", "/s/filebeat-STDOUT.yml"⟩ rfl⟩

/-- C7: in SidecarFile mode (host lookup fails with a caught error,
sandbox and stream truthy) every input line is appended in order to
`sandboxDir ++ "/" ++ lowercase(streamLabel)`: the file's final
content is whatever the provisioning step left there followed by the
concatenation of all input lines (so pre-existing content is never
truncated or altered), no other path changes, nothing is echoed, and
the process exits 0 at end of input. -/
theorem C7_sidecar_append (env : Env) (fs0 : FS) (stdin : List String)
    (hhost : hostLookup (env.executorInfoJson.getD (.obj [])) = .error .keyError ∨
      hostLookup (env.executorInfoJson.getD (.obj [])) = .error .indexError)
    (hsb : truthy env.sandboxDir = true) (hst : truthy env.logStream = true) :
    main env fs0 stdin
      = ⟨sidecarLoop (provisionTemplates fs0 env.sandboxDir)
          (pyStrOpt env.sandboxDir ++ "/" ++ pyLower (pyStrOpt env.logStream)) stdin,
        [], .ok none⟩ ∧
    ((main env fs0 stdin).fs
        (pyStrOpt env.sandboxDir ++ "/" ++ pyLower (pyStrOpt env.logStream))).getD ""
      = ((provisionTemplates fs0 env.sandboxDir
          (pyStrOpt env.sandboxDir ++ "/" ++ pyLower (pyStrOpt env.logStream))).getD "")
        ++ concatAll stdin ∧
    (∀ q, q ≠ pyStrOpt env.sandboxDir ++ "/" ++ pyLower (pyStrOpt env.logStream) →
      (main env fs0 stdin).fs q = provisionTemplates fs0 env.sandboxDir q) ∧
    (∀ n, programExit env fs0 stdin n = .ok 0) := by
  have hres := resolveOutput_of_hostErr (env.executorInfoJson.getD (.obj []))
    env.sandboxDir env.logStream hhost
  rw [resolveFallback_sidecar env.sandboxDir env.logStream hsb hst] at hres
  have hm := main_of_resolve_sidecar env fs0 stdin _ hres
  refine ⟨hm, ?_, ?_, ?_⟩
  · rw [hm]
    exact sidecarLoop_getD _ stdin _
  · intro q hq
    rw [hm]
    exact sidecarLoop_frame _ q hq stdin _
  · intro n
    exact programExit_none env fs0 stdin n (by rw [hm])

set_option maxRecDepth 100000 in
/-- C7 witness: sandbox `/s`, stream `STDERR`, no shipping host: two
input lines end up concatenated in `/s/stderr` and the run exits 0. -/
theorem C7_witness :
    ((main ⟨none, some "/s", some "STDERR"⟩ emptyFS ["hello\n", "world\n"]).fs
        "/s/stderr").getD "" = "hello\nworld\n" ∧
    programExit ⟨none, some "/s", some "STDERR"⟩ emptyFS ["hello\n", "world\n"] 5
      = .ok 0 := by
  have h := C7_sidecar_append ⟨none, some "/s", some "STDERR"⟩ emptyFS
    ["hello\n", "world\n"] (Or.inl rfl) rfl rfl
  refine ⟨?_, h.2.2.2 5⟩
  have h2 := h.2.1
  exact h2

/-- C8: in Passthrough mode (host lookup fails with a caught error and
the sandbox/stream pair is not truthy) every input line is echoed to
standard output unchanged and in order, the filesystem is exactly what
provisioning left, and the process exits 0 at end of input. -/
theorem C8_passthrough (env : Env) (fs0 : FS) (stdin : List String)
    (hhost : hostLookup (env.executorInfoJson.getD (.obj [])) = .error .keyError ∨
      hostLookup (env.executorInfoJson.getD (.obj [])) = .error .indexError)
    (hts : (truthy env.sandboxDir && truthy env.logStream) = false) :
    main env fs0 stdin = ⟨provisionTemplates fs0 env.sandboxDir, stdin, .ok none⟩ ∧
    (∀ n, programExit env fs0 stdin n = .ok 0) := by
  have hres := resolveOutput_of_hostErr (env.executorInfoJson.getD (.obj []))
    env.sandboxDir env.logStream hhost
  rw [resolveFallback_passthrough env.sandboxDir env.logStream hts] at hres
  have hm := main_of_resolve_passthrough env fs0 stdin hres
  exact ⟨hm, fun n => programExit_none env fs0 stdin n (by rw [hm])⟩

/-- C8 witness: no descriptor, no sandbox, no stream: the input line
is echoed and the run exits 0. -/
theorem C8_witness :
    (main ⟨none, none, none⟩ emptyFS ["a line\n"]).stdoutLines = ["a line\n"] ∧
    programExit ⟨none, none, none⟩ emptyFS ["a line\n"] 7 = .ok 0 := by
  have h := C8_passthrough ⟨none, none, none⟩ emptyFS ["a line\n"] (Or.inl rfl) rfl
  exact ⟨by rw [h.1], h.2 7⟩

/-- C9: Ship-mode selection depends only on the host lookup — for any
sandbox/stream context the resolver ships once the lookup succeeds —
and with sandbox and stream both unset the run still proceeds to spawn
with the rendered-config path `"None/filebeat-None.yml"`, embedding
the literal string `None` for each absent value. -/
theorem C9_ship_ignores_context (info : JVal) (fs0 : FS) (stdin : List String)
    (host img fid : JVal)
    (hhost : hostLookup info = .ok host)
    (himg : getImage info = .ok img)
    (hfid : getFrameworkId info = .ok fid) :
    (∀ sb st, resolveOutput info sb st = .ok (.Ship host)) ∧
    (main ⟨some info, none, none⟩ fs0 stdin).result
      = .ok (some ⟨none, "None/filebeat-None.yml"⟩) ∧
    (main ⟨some info, none, none⟩ fs0 stdin).fs "None/filebeat-None.yml"
      = some (templateFormat img.pyStr fid.pyStr "None" "None" host.pyStr) := by
  have hm := main_of_resolve_ship ⟨some info, none, none⟩ fs0 stdin host img fid
    (resolveOutput_of_hostOk info none none host hhost) himg hfid
  refine ⟨fun sb st => resolveOutput_of_hostOk info sb st host hhost, ?_, ?_⟩
  · rw [hm]
    rfl
  · rw [hm]
    rfl

/-- C9 witness: a descriptor holding only the host variable, with no
sandbox and no stream, still ships and renders to
`None/filebeat-None.yml`. -/
theorem C9_witness :
    (main ⟨some descHostOnly, none, none⟩ emptyFS []).result
      = .ok (some ⟨none, "None/filebeat-None.yml"⟩) ∧
    (main ⟨some descHostOnly, none, none⟩ emptyFS []).fs "None/filebeat-None.yml"
      = some (templateFormat "" "" "None" "None" "es:9200") := by
  obtain ⟨h1, h2, h3⟩ := C9_ship_ignores_context descHostOnly emptyFS []
    (.str "es:9200") (.str "") (.str "") rfl rfl rfl
  exact ⟨h2, h3⟩

/-- C10: an empty-string sandbox directory or stream label is falsy,
hence treated like an absent one at every decision point: templates
are not provisioned, the resolver behaves identically to the absent
case, and when the host lookup fails the run falls through to
`Passthrough` rather than `SidecarFile`. -/
theorem C10_empty_string_falsy :
    (∀ fs0 : FS, provisionTemplates fs0 (some "") = fs0) ∧
    (∀ (info : JVal) (st : Option String),
      resolveOutput info (some "") st = resolveOutput info none st) ∧
    (∀ (info : JVal) (sb : Option String),
      resolveOutput info sb (some "") = resolveOutput info sb none) ∧
    (∀ (info : JVal) (st : Option String),
      (hostLookup info = .error .keyError ∨ hostLookup info = .error .indexError) →
      resolveOutput info (some "") st = .ok .Passthrough) ∧
    (∀ (info : JVal) (sb : Option String),
      (hostLookup info = .error .keyError ∨ hostLookup info = .error .indexError) →
      resolveOutput info sb (some "") = .ok .Passthrough) := by
  refine ⟨?_, ?_, ?_, ?_, ?_⟩
  · intro fs0
    exact provisionTemplates_falsy fs0 (some "") rfl
  · intro info st
    cases h : hostLookup info with
    | ok v => simp [resolveOutput, h]
    | error e =>
      cases e <;>
        simp [resolveOutput, h, resolveFallback,
          show truthy (some "") = false from rfl, show truthy none = false from rfl]
  · intro info sb
    cases h : hostLookup info with
    | ok v => simp [resolveOutput, h]
    | error e =>
      cases e <;>
        simp [resolveOutput, h, resolveFallback,
          show truthy (some "") = false from rfl, show truthy none = false from rfl]
  · intro info st h
    rw [resolveOutput_of_hostErr info (some "") st h]
    simp [resolveFallback, show truthy (some "") = false from rfl]
  · intro info sb h
    rw [resolveOutput_of_hostErr info sb (some "") h]
    simp [resolveFallback, show truthy (some "") = false from rfl]

/-- C10 witness: with an empty-string sandbox nothing is provisioned,
and an empty descriptor with a truthy stream still falls through to
`Passthrough`. -/
theorem C10_witness :
    provisionTemplates emptyFS (some "") = emptyFS ∧
    resolveOutput (.obj []) (some "") (some "STDOUT") = .ok .Passthrough :=
  ⟨C10_empty_string_falsy.1 emptyFS,
   C10_empty_string_falsy.2.2.2.1 (.obj []) (some "STDOUT") (Or.inl rfl)⟩

end FilebeatWrapper
